import Mathlib

/-!
Shallow embedding of the HMIS clinical-records core
(python_hmis/app.py): the relational state, the patient registry,
vitals with the derived BMI column, the prescription and medication
catalog, the lab-order workflow, the appointment scheduler and the
latest-vitals aggregation, together with theorems checking the
specification's claims against these definitions.

Conventions of the embedding: SQLite TEXT columns are Lean String,
nullable columns are Option, REAL columns are modelled exactly over the
rationals, AUTOINCREMENT ids are one past the largest id in the table,
and every route that writes the current time receives it as an explicit
argument.  Each table is a list of rows in insertion order; an operation
that can fail returns Except, and an error value means the transaction
left the store untouched.
-/

namespace HMIS

/-- Row of the patients table (init_db, app.py lines 31-38); usn is the
primary key. -/
structure Patient where
  usn : String
  fullName : String
  age : Int
  gender : String
  contact : String
  address : String
deriving Repr, DecidableEq

/-- Row of the vitals table (lines 40-56).  The bmi column is generated
from weight and height and is exposed below as Vital.bmi. -/
structure Vital where
  id : Nat
  usn : String
  weight : ℚ
  height : ℚ
  systolic : Int
  diastolic : Int
  heartRate : Int
  temperature : ℚ
  respiratoryRate : Option Int
  oxygenSaturation : Option Int
  notes : String
  recordedAt : String
  recordedBy : String
deriving Repr, DecidableEq

/-- The generated column of the vitals table (line 45):
weight / ((height/100.0) * (height/100.0)). -/
def Vital.bmi (v : Vital) : ℚ :=
  v.weight / ((v.height / 100) * (v.height / 100))

/-- Row of the prescriptions table (lines 58-64). -/
structure Prescription where
  id : Nat
  usn : String
  notes : String
  prescribedAt : String
deriving Repr, DecidableEq

/-- Row of the encounters table (lines 67-76). -/
structure Encounter where
  id : Nat
  usn : String
  encounterDt : String
  encounterType : String
  clinician : Option String
  reason : Option String
  notes : Option String
deriving Repr, DecidableEq

/-- Row of the problems table (lines 79-88). -/
structure Problem where
  id : Nat
  usn : String
  code : Option String
  description : String
  onsetDate : Option String
  status : String
  recordedAt : String
deriving Repr, DecidableEq

/-- Row of the allergies table (lines 91-99). -/
structure Allergy where
  id : Nat
  usn : String
  substance : String
  reaction : Option String
  severity : Option String
  recordedAt : String
deriving Repr, DecidableEq

/-- Row of the medications master table (lines 102-110). -/
structure Medication where
  id : Nat
  name : String
  genericName : Option String
  form : Option String
  strength : Option String
  isActive : Bool
deriving Repr, DecidableEq

/-- Row of the prescription_items table (lines 113-124). -/
structure PrescriptionItem where
  id : Nat
  prescriptionId : Nat
  medicationId : Nat
  dose : String
  route : String
  frequency : String
  durationDays : Option Int
  instructions : Option String
deriving Repr, DecidableEq

/-- Row of the lab_tests catalog (lines 127-135). -/
structure LabTest where
  id : Nat
  code : String
  name : String
  specimen : Option String
  unit : Option String
  refRange : Option String
  isActive : Bool
deriving Repr, DecidableEq

/-- Row of the lab_orders table (lines 137-146). -/
structure LabOrder where
  id : Nat
  usn : String
  encounterId : Option Nat
  orderedAt : String
  status : String
  notes : Option String
deriving Repr, DecidableEq

/-- Row of the lab_order_items table (lines 148-158). -/
structure LabOrderItem where
  id : Nat
  labOrderId : Nat
  labTestId : Nat
  status : String
  resultValue : Option String
  resultNotes : Option String
  resultAt : Option String
deriving Repr, DecidableEq

/-- Row of the appointments table (lines 161-171). -/
structure Appointment where
  id : Nat
  usn : String
  startsAt : String
  endsAt : String
  status : String
  title : Option String
  clinician : Option String
  notes : Option String
deriving Repr, DecidableEq

/-- The relational store: one list of rows per table of the schema that
the verified operations touch, each in insertion order. -/
structure State where
  patients : List Patient
  vitals : List Vital
  prescriptions : List Prescription
  encounters : List Encounter
  problems : List Problem
  allergies : List Allergy
  medications : List Medication
  prescriptionItems : List PrescriptionItem
  labTests : List LabTest
  labOrders : List LabOrder
  labOrderItems : List LabOrderItem
  appointments : List Appointment
deriving Repr, DecidableEq

/-- A store with every table empty: the state of a freshly created
database right after the CREATE TABLE script ran. -/
def emptyState : State := ⟨[], [], [], [], [], [], [], [], [], [], [], []⟩

/-- Next AUTOINCREMENT value for a table whose rows carry the given
ids: one past the largest id ever handed out (ids are never reused on
the states reachable here, where rows are appended with this id). -/
def freshId (ids : List Nat) : Nat := ids.foldr max 0 + 1

/-- Whether some patient row has the given usn (the SELECT 1 FROM
patients WHERE usn=? existence checks repeated across the routes). -/
def hasPatient (s : State) (usn : String) : Bool :=
  s.patients.any (fun p => p.usn = usn)

/-- Digits of a decimal literal, most significant first, folded into a
natural number; fails on a non-digit and on the empty list. -/
def digitsToNatAux : List Char → Nat → Option Nat
  | [], acc => some acc
  | c :: cs, acc =>
    if c.isDigit then digitsToNatAux cs (10 * acc + (c.toNat - 48)) else none

/-- Parse a nonempty run of decimal digits. -/
def digitsToNat (cs : List Char) : Option Nat :=
  if cs.isEmpty then none else digitsToNatAux cs 0

/-- Models Python int(s) on an already-stripped string: an optional
sign followed by at least one decimal digit yields the signed value,
anything else raises ValueError (here: none).  In particular negative
literals do parse. -/
def pyInt (s : String) : Option Int :=
  match s.data with
  | '-' :: cs => (digitsToNat cs).map (fun n => -(n : Int))
  | '+' :: cs => (digitsToNat cs).map (fun n => (n : Int))
  | cs => (digitsToNat cs).map (fun n => (n : Int))

/-- Store initialization, init_db (lines 25-229).  The CREATE TABLE IF
NOT EXISTS script never changes existing data, so it is the identity on
the modelled state.  The seeding branch runs exactly when the lab_tests
catalog is empty, but its Python seed rows name the identifier NULL
(lines 222 and 224), which is defined nowhere in app.py: evaluating the
row list raises NameError before any row is inserted, so on a fresh
store initialization fails and no seed row is ever added. -/
def initDb (s : State) : Except String State :=
  if s.labTests.isEmpty then
    Except.error "NameError: name NULL is not defined"
  else
    Except.ok s

/-- Failure modes of patient creation, patient_create (lines 285-310):
a missing field or unparsable age redirects with an error message, a
duplicate primary key surfaces as sqlite3.IntegrityError. -/
inductive PatientCreateError where
  | invalidInput : String → PatientCreateError
  | duplicateIdentifier : PatientCreateError
deriving Repr, DecidableEq

/-- patient_create (lines 285-310).  The form fields arrive already
stripped; every one of the six fields must be non-empty, the age must
parse as a Python int (any sign), and the INSERT fails on a duplicate
usn.  An error leaves the store untouched. -/
def createPatient (s : State)
    (usn fullName ageRaw gender contact address : String) :
    Except PatientCreateError State :=
  if usn = "" ∨ fullName = "" ∨ ageRaw = "" ∨ gender = "" ∨ contact = "" ∨ address = "" then
    Except.error (.invalidInput "All patient fields are required")
  else
    match pyInt ageRaw with
    | none => Except.error (.invalidInput "Age must be a number")
    | some age =>
      if hasPatient s usn then
        Except.error .duplicateIdentifier
      else
        Except.ok { s with
          patients := s.patients ++ [⟨usn, fullName, age, gender, contact, address⟩] }

/-- patient_delete (lines 341-347) together with the schema's ON DELETE
clauses (lines 31-171): deleting the patient row cascades to vitals,
prescriptions (and, through them, prescription_items), encounters
(lab orders pointing at a deleted encounter get encounter_id set to
null), problems, allergies, lab orders (and, through them,
lab_order_items) and appointments.  When no patient row matches the
usn, the DELETE touches zero rows, no cascade fires, and the store is
unchanged. -/
def deletePatient (s : State) (usn : String) : State :=
  if hasPatient s usn then
    let deadRx := (s.prescriptions.filter (fun r => r.usn = usn)).map (fun r => r.id)
    let deadOrders := (s.labOrders.filter (fun o => o.usn = usn)).map (fun o => o.id)
    let deadEnc := (s.encounters.filter (fun e => e.usn = usn)).map (fun e => e.id)
    { s with
      patients := s.patients.filter (fun p => p.usn ≠ usn)
      vitals := s.vitals.filter (fun v => v.usn ≠ usn)
      prescriptions := s.prescriptions.filter (fun r => r.usn ≠ usn)
      prescriptionItems := s.prescriptionItems.filter (fun i => i.prescriptionId ∉ deadRx)
      encounters := s.encounters.filter (fun e => e.usn ≠ usn)
      problems := s.problems.filter (fun q => q.usn ≠ usn)
      allergies := s.allergies.filter (fun a => a.usn ≠ usn)
      labOrders := (s.labOrders.filter (fun o => o.usn ≠ usn)).map
        (fun o => match o.encounterId with
          | some e => if e ∈ deadEnc then { o with encounterId := none } else o
          | none => o)
      labOrderItems := s.labOrderItems.filter (fun i => i.labOrderId ∉ deadOrders)
      appointments := s.appointments.filter (fun a => a.usn ≠ usn) }
  else s

/-- api_vitals POST (lines 453-491), after the boundary layer has
parsed the numeric fields: check the patient exists, then append a row
stamped with the current time; recorded_by takes the schema default.
The new row (whose bmi is the generated column Vital.bmi) is part of
the stored state. -/
def recordVitals (s : State) (usn : String) (weight height : ℚ)
    (systolic diastolic heartRate : Int) (temperature : ℚ)
    (respiratoryRate oxygenSaturation : Option Int) (notes now : String) :
    Except String (State × Vital) :=
  if hasPatient s usn then
    let v : Vital := ⟨freshId (s.vitals.map (fun w => w.id)), usn, weight, height,
      systolic, diastolic, heartRate, temperature, respiratoryRate, oxygenSaturation,
      notes, now, "System User"⟩
    Except.ok ({ s with vitals := s.vitals ++ [v] }, v)
  else
    Except.error "Patient not found"

/-- Failure modes of api_create_lab_order (lines 918-951). -/
inductive LabOrderError where
  | invalidInput
  | patientNotFound
  | testNotFound
deriving Repr, DecidableEq

/-- api_create_lab_order (lines 918-951): require non-empty usn and
test code, check the patient, resolve the code among active lab tests,
then insert one order (status Ordered) and one item for the resolved
test; the item takes the schema defaults, so its status is Ordered and
its result columns are null.  An error leaves the store untouched. -/
def createLabOrder (s : State) (usn testCode : String) (notes : Option String)
    (now : String) : Except LabOrderError (State × Nat) :=
  if usn = "" ∨ testCode = "" then
    Except.error .invalidInput
  else if hasPatient s usn then
    match s.labTests.find? (fun t => t.code = testCode && t.isActive) with
    | none => Except.error .testNotFound
    | some t =>
      let oid := freshId (s.labOrders.map (fun o => o.id))
      let iid := freshId (s.labOrderItems.map (fun i => i.id))
      Except.ok ({ s with
        labOrders := s.labOrders ++ [⟨oid, usn, none, now, "Ordered", notes⟩]
        labOrderItems := s.labOrderItems ++ [⟨iid, oid, t.id, "Ordered", none, none, none⟩] }, oid)
  else
    Except.error .patientNotFound

/-- The first UPDATE of api_set_lab_result (lines 993-1000): the row
with the given id gets the result value, the result notes, the result
timestamp and status Completed, unconditionally; every other row is
unchanged. -/
def applyResult (itemId : Nat) (value : String) (notes : Option String)
    (now : String) (it : LabOrderItem) : LabOrderItem :=
  if it.id = itemId then
    { it with
      status := "Completed"
      resultValue := some value
      resultNotes := notes
      resultAt := some now }
  else it

/-- api_set_lab_result (lines 985-1014): complete the item, then the
second UPDATE sets the owning order (the order whose id the item's
lab_order_id subquery returns) to Completed exactly when no item of
that order is still incomplete, and otherwise keeps its status; no
other order row is touched.  The route replies ok unconditionally,
also when no item has the given id, in which case both UPDATEs match
zero rows. -/
def recordLabResult (s : State) (itemId : Nat) (value : String)
    (notes : Option String) (now : String) : State :=
  let items := s.labOrderItems.map (applyResult itemId value notes now)
  let owner : Option Nat := (items.find? (fun it => it.id = itemId)).map (fun it => it.labOrderId)
  let orders := s.labOrders.map (fun o =>
    if owner = some o.id then
      if items.all (fun it => it.labOrderId ≠ o.id || it.status = "Completed") then
        { o with status := "Completed" }
      else o
    else o)
  { s with labOrderItems := items, labOrders := orders }

/-- Failure modes of api_appointments_create (lines 837-867). -/
inductive AppointmentError where
  | invalidInput
  | patientNotFound
deriving Repr, DecidableEq

/-- api_appointments_create (lines 837-867): require non-empty usn,
starts_at and ends_at, check the patient, then insert the row with
status Scheduled; nothing compares starts_at with ends_at.  An error
leaves the store untouched. -/
def createAppointment (s : State) (usn startsAt endsAt : String)
    (title clinician notes : Option String) :
    Except AppointmentError (State × Nat) :=
  if usn = "" ∨ startsAt = "" ∨ endsAt = "" then
    Except.error .invalidInput
  else if hasPatient s usn then
    let aid := freshId (s.appointments.map (fun a => a.id))
    Except.ok ({ s with appointments :=
      s.appointments ++ [⟨aid, usn, startsAt, endsAt, "Scheduled", title, clinician, notes⟩] }, aid)
  else
    Except.error .patientNotFound

/-- The medication upsert of prescription_item_create (lines 772-778):
look the name up with the exact (BINARY-collated, case-sensitive)
equality of the WHERE clause; reuse the first match, and otherwise
insert a catalog row carrying only the name (every other column takes
its default). -/
def findOrCreateMedication (meds : List Medication) (name : String) :
    Nat × List Medication :=
  match meds.find? (fun m => m.name = name) with
  | some m => (m.id, meds)
  | none =>
    let mid := freshId (meds.map (fun m => m.id))
    (mid, meds ++ [⟨mid, name, none, none, none, true⟩])

/-- Failure modes of prescription_item_create (lines 757-794): a
missing field redirects with an error message, and a prescription id
that resolves to no prescriptions row makes the item INSERT violate
the FOREIGN KEY (prescription_id) clause (line 122, enforced by
PRAGMA foreign_keys = ON at line 21), raising sqlite3.IntegrityError. -/
inductive RxItemError where
  | invalidInput
  | integrityError
deriving Repr, DecidableEq

/-- prescription_item_create (lines 757-794), with the prescription id
already parsed at the boundary: require a non-empty medication name,
resolve or create the medication, and insert the item.  A duration
that fails to parse is silently dropped to null (the except branch of
the source), and empty instructions are stored as null.  When the
prescription id matches no prescriptions row, the item INSERT raises
IntegrityError before the commit is reached, so the whole transaction
— the medication upsert included — rolls back and the store is
unchanged. -/
def addPrescriptionItem (s : State) (prescriptionId : Nat) (medName : String)
    (dose route frequency durationRaw instructions : String) :
    Except RxItemError State :=
  if medName = "" then
    Except.error .invalidInput
  else
    let r := findOrCreateMedication s.medications medName
    let dur : Option Int := if durationRaw = "" then none else pyInt durationRaw
    let item : PrescriptionItem :=
      ⟨freshId (s.prescriptionItems.map (fun i => i.id)), prescriptionId, r.1,
        dose, route, frequency, dur,
        if instructions = "" then none else some instructions⟩
    if s.prescriptions.any (fun rx => rx.id = prescriptionId) then
      Except.ok { s with
        medications := r.2
        prescriptionItems := s.prescriptionItems ++ [item] }
    else
      Except.error .integrityError

/-- The latest-vitals join of export_csv (lines 1049-1058): a vitals
row is selected when its timestamp equals the per-patient maximum,
i.e. when no row of the same patient has a strictly later timestamp
(SQLite compares the TEXT timestamps with binary collation, modelled
by the lexicographic order on String). -/
def isLatestFor (vs : List Vital) (v : Vital) : Bool :=
  vs.all (fun w => w.usn ≠ v.usn || w.recordedAt ≤ v.recordedAt)

/-- The rows returned by the latest-vitals join of export_csv. -/
def latestVitalsRows (vs : List Vital) : List Vital :=
  vs.filter (fun v => isLatestFor vs v)

/-- The Python dict built from the join result (lines 1049-1059): later
rows overwrite earlier ones, so a lookup returns the last selected row
of the patient, and none when the patient has no vitals. -/
def latestVitalsMap (vs : List Vital) (usn : String) : Option Vital :=
  ((latestVitalsRows vs).filter (fun v => v.usn = usn)).getLast?

/-- One comparison step of the ORDER BY recorded_at DESC LIMIT 1
subquery of api_export_complete: keep the row seen so far unless the
next one is strictly later. -/
def pickLater (acc : Option Vital) (v : Vital) : Option Vital :=
  match acc with
  | none => some v
  | some w => if w.recordedAt < v.recordedAt then some v else some w

/-- The per-patient latest-vitals row of api_export_complete (lines
554-570): the patient's vitals row with the maximal recorded
timestamp, none when the patient has none (ties resolved by scan
order, which the source leaves unspecified). -/
def latestVitalFor (vs : List Vital) (usn : String) : Option Vital :=
  (vs.filter (fun v => v.usn = usn)).foldl pickLater none

/-- One row of the complete export of api_export_complete (lines
549-594): the patient columns, the vitals columns of the LEFT JOIN
against the latest vitals row (null when the patient has none), and
the two per-patient counts. -/
structure ExportRow where
  usn : String
  fullName : String
  age : Int
  gender : String
  contact : String
  address : String
  latestWeight : Option ℚ
  latestHeight : Option ℚ
  latestBmi : Option ℚ
  totalVitals : Nat
  totalPrescriptions : Nat
deriving Repr, DecidableEq

/-- api_export_complete (lines 549-594): every patient row produces an
export row; the vitals columns are null exactly when the LEFT JOIN
finds no vitals row for the patient.  (The source orders the rows by
full name, a presentation detail that does not change which rows
appear.) -/
def exportComplete (s : State) : List ExportRow :=
  s.patients.map (fun p =>
    let v := latestVitalFor s.vitals p.usn
    ⟨p.usn, p.fullName, p.age, p.gender, p.contact, p.address,
      v.map (fun w => w.weight), v.map (fun w => w.height), v.map Vital.bmi,
      (s.vitals.filter (fun w => w.usn = p.usn)).length,
      (s.prescriptions.filter (fun r => r.usn = p.usn)).length⟩)

/-- Referential integrity of the patient foreign keys, the invariant
PRAGMA foreign_keys = ON maintains on every reachable store: each
dependent row's usn resolves to a patient row. -/
def refIntegrity (s : State) : Prop :=
  (∀ v ∈ s.vitals, hasPatient s v.usn) ∧
  (∀ r ∈ s.prescriptions, hasPatient s r.usn) ∧
  (∀ e ∈ s.encounters, hasPatient s e.usn) ∧
  (∀ q ∈ s.problems, hasPatient s q.usn) ∧
  (∀ a ∈ s.allergies, hasPatient s a.usn) ∧
  (∀ o ∈ s.labOrders, hasPatient s o.usn) ∧
  (∀ a ∈ s.appointments, hasPatient s a.usn)

/-- Mapping a function that fixes every element of a list is the
identity on that list. -/
lemma map_self_of_mem {α : Type} (l : List α) (f : α → α)
    (h : ∀ x ∈ l, f x = x) : l.map f = l := by
  induction l with
  | nil => rfl
  | cons a t ih =>
    simp only [List.map_cons]
    rw [h a (List.mem_cons_self a t), ih (fun x hx => h x (List.mem_cons_of_mem a hx))]

/-- A patient row used by the concrete witness states. -/
def patientW : Patient := ⟨"U1", "Alice", 30, "F", "999", "Elm"⟩

/-- A store holding one patient and nothing else. -/
def oneP : State := { emptyState with patients := [patientW] }

/-- A store with one patient, a seeded catalog, one lab order and two
still-ordered items on it. -/
def labW : State := { emptyState with
  patients := [patientW]
  labTests := [⟨1, "CBC", "Complete Blood Count", some "Blood", none, none, true⟩]
  labOrders := [⟨1, "U1", none, "t0", "Ordered", none⟩]
  labOrderItems := [⟨1, 1, 1, "Ordered", none, none, none⟩, ⟨2, 1, 1, "Ordered", none, none, none⟩] }

end HMIS

namespace HMIS

/-- Claim C2: a vitals record accepted by recordVitals stores and
returns BMI = weight divided by the square of height-in-meters (the
generated column divides by (height/100) squared), and weight 70 with
height 175 gives 1120/49, which is within 0.01 of 22.86. -/
theorem recordVitals_bmi_c2 (s : State) (usn : String) (w h : ℚ)
    (sy di hr : Int) (t : ℚ) (rr os : Option Int) (nt now : String)
    (s2 : State) (v : Vital) (hw : 0 < w) (hh : 0 < h)
    (hok : recordVitals s usn w h sy di hr t rr os nt now = Except.ok (s2, v)) :
    v.bmi = w / (h / 100) ^ 2 ∧ v ∈ s2.vitals ∧ v.weight = w ∧ v.height = h ∧
    (w = 70 → h = 175 → v.bmi = 1120 / 49 ∧ |v.bmi - 2286 / 100| < 1 / 100) := by
  unfold recordVitals at hok
  split at hok
  · simp only [Except.ok.injEq, Prod.mk.injEq] at hok
    obtain ⟨hs2, hv⟩ := hok
    subst hs2
    subst hv
    refine ⟨?_, by simp, rfl, rfl, ?_⟩
    · simp only [Vital.bmi]
      rw [pow_two]
    · intro hw70 hh175
      subst hw70
      subst hh175
      constructor
      · simp only [Vital.bmi]
        norm_num
      · simp only [Vital.bmi]
        rw [abs_sub_lt_iff]
        norm_num
  · exact absurd hok (by simp)

/-- Witness for C2 at a concrete store: the record written for weight
70 and height 175 carries BMI 70 / (175/100)^2. -/
theorem recordVitals_bmi_c2_witness :
    (0 : ℚ) < 70 ∧
    Vital.bmi ⟨1, "U1", 70, 175, 120, 80, 72, 37, none, none, "", "t1", "System User"⟩ =
      70 / ((175 : ℚ) / 100) ^ 2 := by
  refine ⟨by norm_num, ?_⟩
  have hmain := recordVitals_bmi_c2 oneP "U1" 70 175 120 80 72 37 none none "" "t1"
    ({ oneP with vitals := [⟨1, "U1", 70, 175, 120, 80, 72, 37, none, none, "", "t1", "System User"⟩] })
    ⟨1, "U1", 70, 175, 120, 80, 72, 37, none, none, "", "t1", "System User"⟩
    (by norm_num) (by norm_num) rfl
  exact hmain.1

/-- Claim C5: initialization is the identity on a store whose lab-test
catalog is already non-empty (the CREATE TABLE IF NOT EXISTS script
changes nothing), but on a fresh store the seeding branch fails — the
seed rows of init_db name the undefined Python identifier NULL, so a
NameError is raised and the CBC, GLU and LFT starter rows are never
inserted. -/
theorem initDb_c5 :
    initDb labW = Except.ok labW ∧
    initDb oneP = Except.error "NameError: name NULL is not defined" ∧
    (initDb oneP).isOk = false := ⟨rfl, rfl, rfl⟩

/-- Claim C10: recording a result against an item id that no lab order
item carries leaves the whole store unchanged — both UPDATEs of
api_set_lab_result match zero rows — while the route still replies ok
(the operation is total and returns the state unconditionally). -/
theorem recordLabResult_missing_c10 (s : State) (itemId : Nat) (value : String)
    (notes : Option String) (now : String)
    (habs : ∀ it ∈ s.labOrderItems, it.id ≠ itemId) :
    recordLabResult s itemId value notes now = s := by
  have hmap : s.labOrderItems.map (applyResult itemId value notes now) = s.labOrderItems :=
    map_self_of_mem _ _ (fun x hx => by
      unfold applyResult
      rw [if_neg (habs x hx)])
  have hfind : s.labOrderItems.find? (fun it => it.id = itemId) = none :=
    List.find?_eq_none.2 (fun x hx => by simpa using habs x hx)
  have horders : s.labOrders.map (fun o =>
      if (none : Option Nat) = some o.id then
        if s.labOrderItems.all (fun it => it.labOrderId ≠ o.id || it.status = "Completed") then
          { o with status := "Completed" }
        else o
      else o) = s.labOrders :=
    map_self_of_mem _ _ (fun o _ => by simp)
  simp only [recordLabResult, hmap, hfind, Option.map_none', horders]

/-- Witness for C10: id 99 names no item of the two-item store, and the
call returns it unchanged. -/
theorem recordLabResult_missing_c10_witness :
    recordLabResult labW 99 "5.0" none "t1" = labW :=
  recordLabResult_missing_c10 labW 99 "5.0" none "t1" (by decide)

/-- Claim C4 counterexample: the age form value -5 is an integer that
is not non-negative, yet patient_create parses it with int(), never
checks the sign, and inserts the patient instead of failing with
InvalidInput. -/
theorem createPatient_c4_counterexample :
    createPatient emptyState "U1" "Alice" "-5" "F" "999" "Elm" =
      Except.ok { emptyState with patients := [⟨"U1", "Alice", -5, "F", "999", "Elm"⟩] } ∧
    (-5 : Int) < 0 := by
  exact ⟨rfl, by decide⟩

/-- Claim C4 as amended: createPatient fails with InvalidInput when a
required field is empty or the age does not parse as an integer (any
sign — negative ages are accepted), fails with DuplicateIdentifier
when the identifier already exists, and otherwise appends exactly one
patient row; every failure returns no new state. -/
theorem createPatient_c4 (s : State) (usn fn ageRaw g c a : String) :
    ((usn = "" ∨ fn = "" ∨ ageRaw = "" ∨ g = "" ∨ c = "" ∨ a = "") →
      createPatient s usn fn ageRaw g c a =
        Except.error (.invalidInput "All patient fields are required")) ∧
    (usn ≠ "" → fn ≠ "" → ageRaw ≠ "" → g ≠ "" → c ≠ "" → a ≠ "" →
      (pyInt ageRaw = none →
        createPatient s usn fn ageRaw g c a =
          Except.error (.invalidInput "Age must be a number")) ∧
      (∀ age : Int, pyInt ageRaw = some age →
        (hasPatient s usn = true →
          createPatient s usn fn ageRaw g c a = Except.error .duplicateIdentifier) ∧
        (hasPatient s usn = false →
          createPatient s usn fn ageRaw g c a =
            Except.ok { s with patients := s.patients ++ [⟨usn, fn, age, g, c, a⟩] }))) := by
  constructor
  · intro hempty
    unfold createPatient
    rw [if_pos hempty]
  · intro h1 h2 h3 h4 h5 h6
    have hcond : ¬ (usn = "" ∨ fn = "" ∨ ageRaw = "" ∨ g = "" ∨ c = "" ∨ a = "") := by
      simp [h1, h2, h3, h4, h5, h6]
    constructor
    · intro hparse
      unfold createPatient
      rw [if_neg hcond, hparse]
    · intro age hparse
      constructor
      · intro hdup
        unfold createPatient
        rw [if_neg hcond, hparse]
        simp only [hdup, if_true]
      · intro hfresh
        unfold createPatient
        rw [if_neg hcond, hparse]
        simp only [hfresh]
        rfl

/-- Witness for C4 on the success branch: fresh identifier, all fields
present, age 41. -/
theorem createPatient_c4_witness :
    createPatient emptyState "U2" "Bob" "41" "M" "8" "B" =
      Except.ok { emptyState with patients := [⟨"U2", "Bob", 41, "M", "8", "B"⟩] } :=
  (((createPatient_c4 emptyState "U2" "Bob" "41" "M" "8" "B").2
      (by decide) (by decide) (by decide) (by decide) (by decide) (by decide)).2
    41 (by decide)).2 (by decide)

/-- Claim C9: appointment creation fails with InvalidInput when
starts_at or ends_at is empty, fails with PatientNotFound when the
patient does not exist, and otherwise appends one row with status
Scheduled; no comparison between starts_at and ends_at is ever made,
so a reversed range succeeds like any other. -/
theorem createAppointment_c9 (s : State) (usn startsAt endsAt : String)
    (title clinician notes : Option String) (husn : usn ≠ "") :
    ((startsAt = "" ∨ endsAt = "") →
      createAppointment s usn startsAt endsAt title clinician notes =
        Except.error .invalidInput) ∧
    (startsAt ≠ "" → endsAt ≠ "" →
      (hasPatient s usn = false →
        createAppointment s usn startsAt endsAt title clinician notes =
          Except.error .patientNotFound) ∧
      (hasPatient s usn = true →
        createAppointment s usn startsAt endsAt title clinician notes =
          Except.ok ({ s with appointments := s.appointments ++
            [⟨freshId (s.appointments.map (fun x => x.id)), usn, startsAt, endsAt,
              "Scheduled", title, clinician, notes⟩] },
            freshId (s.appointments.map (fun x => x.id))))) := by
  constructor
  · intro hempty
    unfold createAppointment
    rw [if_pos (by tauto)]
  · intro h1 h2
    have hcond : ¬ (usn = "" ∨ startsAt = "" ∨ endsAt = "") := by simp [husn, h1, h2]
    constructor
    · intro hmiss
      unfold createAppointment
      rw [if_neg hcond]
      simp only [hmiss]
      rfl
    · intro hfound
      unfold createAppointment
      rw [if_neg hcond]
      simp only [hfound]
      rfl

/-- Witness for C9: the patient exists and starts_at is
lexicographically after ends_at (a reversed range), yet the call
succeeds and the stored status is Scheduled. -/
theorem createAppointment_c9_witness :
    createAppointment oneP "U1" "2026-01-02T10:00" "2026-01-01T10:00" none none none =
      Except.ok ({ oneP with appointments :=
        [⟨1, "U1", "2026-01-02T10:00", "2026-01-01T10:00", "Scheduled", none, none, none⟩] }, 1) ∧
    ("2026-01-01T10:00" : String) < "2026-01-02T10:00" := by
  refine ⟨?_, by rw [String.lt_iff_toList_lt]; decide⟩
  exact ((createAppointment_c9 oneP "U1" "2026-01-02T10:00" "2026-01-01T10:00"
    none none none (by decide)).2 (by decide) (by decide)).2 (by decide)

/-- Claim C6: lab-order creation fails with PatientNotFound when the
patient is missing, fails with TestNotFound when no active lab test
carries the code, and on success appends exactly one order with status
Ordered and exactly one item for the resolved test with status Ordered
and empty result columns; an error returns no new state. -/
theorem createLabOrder_c6 (s : State) (usn testCode : String)
    (notes : Option String) (now : String) (husn : usn ≠ "") (htc : testCode ≠ "") :
    (hasPatient s usn = false →
      createLabOrder s usn testCode notes now = Except.error .patientNotFound) ∧
    (hasPatient s usn = true →
      ((∀ t ∈ s.labTests, t.code ≠ testCode ∨ t.isActive = false) →
        createLabOrder s usn testCode notes now = Except.error .testNotFound) ∧
      (∀ t, s.labTests.find? (fun x => x.code = testCode && x.isActive) = some t →
        createLabOrder s usn testCode notes now =
          Except.ok ({ s with
            labOrders := s.labOrders ++
              [⟨freshId (s.labOrders.map (fun o => o.id)), usn, none, now, "Ordered", notes⟩]
            labOrderItems := s.labOrderItems ++
              [⟨freshId (s.labOrderItems.map (fun i => i.id)),
                freshId (s.labOrders.map (fun o => o.id)), t.id, "Ordered", none, none, none⟩] },
            freshId (s.labOrders.map (fun o => o.id))))) := by
  have hcond : ¬ (usn = "" ∨ testCode = "") := by simp [husn, htc]
  constructor
  · intro hmiss
    unfold createLabOrder
    rw [if_neg hcond]
    simp only [hmiss]
    rfl
  · intro hfound
    constructor
    · intro hnone
      have hfind : s.labTests.find? (fun x => x.code = testCode && x.isActive) = none := by
        refine List.find?_eq_none.2 (fun x hx => ?_)
        rcases hnone x hx with h | h <;> simp [h]
      unfold createLabOrder
      rw [if_neg hcond]
      simp only [hfound, if_true, hfind]
    · intro t hfind
      unfold createLabOrder
      rw [if_neg hcond]
      simp only [hfound, if_true, hfind]

/-- Witness for C6 on the success branch: the one-patient seeded store
gains exactly one Ordered order and one Ordered item for the CBC
test. -/
theorem createLabOrder_c6_witness :
    createLabOrder labW "U1" "CBC" none "t5" =
      Except.ok ({ labW with
        labOrders := labW.labOrders ++ [⟨2, "U1", none, "t5", "Ordered", none⟩]
        labOrderItems := labW.labOrderItems ++ [⟨3, 2, 1, "Ordered", none, none, none⟩] }, 2) :=
  ((createLabOrder_c6 labW "U1" "CBC" none "t5" (by decide) (by decide)).2
    (by decide)).2 ⟨1, "CBC", "Complete Blood Count", some "Blood", none, none, true⟩ (by decide)

/-- Claim C8: the medication is resolved by exact, case-sensitive name
lookup — when the prescription row exists (the only way the item INSERT
can commit), an unseen name appends exactly one catalog row and the
item points at it, a name already in the catalog is reused without
touching the catalog and the item points at the matched row; every
successful call preserves name-uniqueness of the catalog; and a
dangling prescription id fails with IntegrityError, rolling back the
upsert so the catalog gains nothing. -/
theorem addPrescriptionItem_c8 (s : State) (pid : Nat) (medName : String)
    (dose route freq dur instr : String) (hname : medName ≠ "") :
    (s.prescriptions.any (fun rx => rx.id = pid) = true →
      (s.medications.find? (fun m => m.name = medName) = none →
        addPrescriptionItem s pid medName dose route freq dur instr =
          Except.ok { s with
            medications := s.medications ++
              [⟨freshId (s.medications.map (fun m => m.id)), medName, none, none, none, true⟩]
            prescriptionItems := s.prescriptionItems ++
              [⟨freshId (s.prescriptionItems.map (fun i => i.id)), pid,
                freshId (s.medications.map (fun m => m.id)), dose, route, freq,
                (if dur = "" then none else pyInt dur),
                (if instr = "" then none else some instr)⟩] }) ∧
      (∀ m0, s.medications.find? (fun m => m.name = medName) = some m0 →
        addPrescriptionItem s pid medName dose route freq dur instr =
          Except.ok { s with
            prescriptionItems := s.prescriptionItems ++
              [⟨freshId (s.prescriptionItems.map (fun i => i.id)), pid, m0.id, dose, route, freq,
                (if dur = "" then none else pyInt dur),
                (if instr = "" then none else some instr)⟩] })) ∧
    ((s.medications.map (fun m => m.name)).Nodup →
      ∀ s2, addPrescriptionItem s pid medName dose route freq dur instr = Except.ok s2 →
        (s2.medications.map (fun m => m.name)).Nodup) ∧
    (s.prescriptions.any (fun rx => rx.id = pid) = false →
      addPrescriptionItem s pid medName dose route freq dur instr =
        Except.error .integrityError) := by
  refine ⟨?_, ?_, ?_⟩
  · intro hrx
    constructor
    · intro hfind
      simp only [addPrescriptionItem, findOrCreateMedication, if_neg hname, hfind, hrx, if_true]
    · intro m0 hfind
      simp only [addPrescriptionItem, findOrCreateMedication, if_neg hname, hfind, hrx, if_true]
  · intro hnd s2 hok
    cases hrx : s.prescriptions.any (fun rx => rx.id = pid) with
    | false =>
      simp [addPrescriptionItem, if_neg hname, hrx] at hok
    | true =>
      rcases hfind : s.medications.find? (fun m => m.name = medName) with _ | m0
      · simp only [addPrescriptionItem, findOrCreateMedication, if_neg hname, hfind, hrx,
          if_true, Except.ok.injEq] at hok
        subst hok
        have hnotin : medName ∉ s.medications.map (fun m => m.name) := by
          intro hmem
          rcases List.mem_map.1 hmem with ⟨x, hx, hxn⟩
          have hne := List.find?_eq_none.1 hfind x hx
          simp [hxn] at hne
        simp [List.nodup_append, hnd, hnotin]
      · simp only [addPrescriptionItem, findOrCreateMedication, if_neg hname, hfind, hrx,
          if_true, Except.ok.injEq] at hok
        subst hok
        simpa using hnd
  · intro hrx
    simp [addPrescriptionItem, if_neg hname, hrx]

/-- A store holding one patient and one prescription row (id 1) for
them. -/
def rxW : State := { oneP with prescriptions := [⟨1, "U1", "rest", "t1"⟩] }

/-- The store after the first Aspirin item on prescription 1: one
catalog row, one item. -/
def medW : State := { rxW with
  medications := [⟨1, "Aspirin", none, none, none, true⟩]
  prescriptionItems := [⟨1, 1, 1, "", "", "", none, none⟩] }

/-- Witness for C8: against the existing prescription 1, a first call
with the unseen name Aspirin creates catalog row 1, a second call with
the same name reuses row 1 without growing the catalog, and a call
against the missing prescription 2 fails with IntegrityError, adding
nothing. -/
theorem addPrescriptionItem_c8_witness :
    addPrescriptionItem rxW 1 "Aspirin" "" "" "" "" "" = Except.ok medW ∧
    addPrescriptionItem medW 1 "Aspirin" "" "" "" "" "" =
      Except.ok { medW with prescriptionItems :=
        medW.prescriptionItems ++ [⟨2, 1, 1, "", "", "", none, none⟩] } ∧
    addPrescriptionItem rxW 2 "Aspirin" "" "" "" "" "" = Except.error .integrityError := by
  refine ⟨?_, ?_, ?_⟩
  · exact ((addPrescriptionItem_c8 rxW 1 "Aspirin" "" "" "" "" "" (by decide)).1
      (by decide)).1 (by decide)
  · exact ((addPrescriptionItem_c8 medW 1 "Aspirin" "" "" "" "" "" (by decide)).1
      (by decide)).2 ⟨1, "Aspirin", none, none, none, true⟩ (by decide)
  · exact (addPrescriptionItem_c8 rxW 2 "Aspirin" "" "" "" "" "" (by decide)).2.2 (by decide)

/-- A store whose every table holds one row for patient U1 (and the
catalog rows they reference). -/
def fullW : State := { emptyState with
  patients := [patientW]
  vitals := [⟨1, "U1", 70, 175, 120, 80, 72, 37, none, none, "", "t1", "System User"⟩]
  prescriptions := [⟨1, "U1", "rest", "t1"⟩]
  encounters := [⟨1, "U1", "t1", "OPD", none, none, none⟩]
  problems := [⟨1, "U1", none, "cough", none, "Active", "t1"⟩]
  allergies := [⟨1, "U1", "dust", none, none, "t1"⟩]
  prescriptionItems := [⟨1, 1, 1, "", "", "", none, none⟩]
  labTests := [⟨1, "CBC", "Complete Blood Count", some "Blood", none, none, true⟩]
  labOrders := [⟨1, "U1", none, "t0", "Ordered", none⟩]
  labOrderItems := [⟨1, 1, 1, "Ordered", none, none, none⟩]
  appointments := [⟨1, "U1", "a", "b", "Scheduled", none, none, none⟩] }

/-- Claim C3: on a store satisfying the enforced referential
integrity, deleting a patient leaves no row of any patient-dependent
table referencing that identifier, and deleting an identifier no
patient carries returns the store unchanged. -/
theorem deletePatient_c3 (s : State) (u : String) (hri : refIntegrity s) :
    (∀ p ∈ (deletePatient s u).patients, p.usn ≠ u) ∧
    (∀ v ∈ (deletePatient s u).vitals, v.usn ≠ u) ∧
    (∀ r ∈ (deletePatient s u).prescriptions, r.usn ≠ u) ∧
    (∀ e ∈ (deletePatient s u).encounters, e.usn ≠ u) ∧
    (∀ q ∈ (deletePatient s u).problems, q.usn ≠ u) ∧
    (∀ a ∈ (deletePatient s u).allergies, a.usn ≠ u) ∧
    (∀ o ∈ (deletePatient s u).labOrders, o.usn ≠ u) ∧
    (∀ a ∈ (deletePatient s u).appointments, a.usn ≠ u) ∧
    (hasPatient s u = false → deletePatient s u = s) := by
  obtain ⟨hv, hr, he, hq, ha, ho, hap⟩ := hri
  by_cases hcond : hasPatient s u = true
  · refine ⟨?_, ?_, ?_, ?_, ?_, ?_, ?_, ?_, ?_⟩
    · intro x hx
      simp only [deletePatient, if_pos hcond] at hx
      simpa using (List.mem_filter.1 hx).2
    · intro x hx
      simp only [deletePatient, if_pos hcond] at hx
      simpa using (List.mem_filter.1 hx).2
    · intro x hx
      simp only [deletePatient, if_pos hcond] at hx
      simpa using (List.mem_filter.1 hx).2
    · intro x hx
      simp only [deletePatient, if_pos hcond] at hx
      simpa using (List.mem_filter.1 hx).2
    · intro x hx
      simp only [deletePatient, if_pos hcond] at hx
      simpa using (List.mem_filter.1 hx).2
    · intro x hx
      simp only [deletePatient, if_pos hcond] at hx
      simpa using (List.mem_filter.1 hx).2
    · intro x hx
      simp only [deletePatient, if_pos hcond] at hx
      rcases List.mem_map.1 hx with ⟨y, hy, hfy⟩
      have hyu : y.usn ≠ u := by simpa using (List.mem_filter.1 hy).2
      have hxy : x.usn = y.usn := by
        rcases hfy with rfl
        cases hyenc : y.encounterId <;> simp [hyenc]
        split <;> rfl
      rw [hxy]
      exact hyu
    · intro x hx
      simp only [deletePatient, if_pos hcond] at hx
      simpa using (List.mem_filter.1 hx).2
    · intro hfalse
      rw [hfalse] at hcond
      exact absurd hcond (by simp)
  · have hnoop : deletePatient s u = s := by
      simp only [deletePatient, if_neg hcond]
    rw [hnoop]
    refine ⟨?_, ?_, ?_, ?_, ?_, ?_, ?_, ?_, fun _ => rfl⟩
    · intro p hp hpu
      exact hcond (List.any_eq_true.2 ⟨p, hp, by simp [hpu]⟩)
    · intro x hx hxu
      exact hcond (hxu ▸ hv x hx)
    · intro x hx hxu
      exact hcond (hxu ▸ hr x hx)
    · intro x hx hxu
      exact hcond (hxu ▸ he x hx)
    · intro x hx hxu
      exact hcond (hxu ▸ hq x hx)
    · intro x hx hxu
      exact hcond (hxu ▸ ha x hx)
    · intro x hx hxu
      exact hcond (hxu ▸ ho x hx)
    · intro x hx hxu
      exact hcond (hxu ▸ hap x hx)

/-- Witness for C3: deleting U1 from the fully populated store empties
every dependent table of U1 rows, and deleting the absent U2 changes
nothing. -/
theorem deletePatient_c3_witness :
    (∀ v ∈ (deletePatient fullW "U1").vitals, v.usn ≠ "U1") ∧
    deletePatient fullW "U2" = fullW := by
  constructor
  · exact (deletePatient_c3 fullW "U1" (by unfold refIntegrity; decide)).2.1
  · exact (deletePatient_c3 fullW "U2" (by unfold refIntegrity; decide)).2.2.2.2.2.2.2.2 (by decide)

/-- applyResult never changes an item's id. -/
lemma applyResult_id (itemId : Nat) (value : String) (notes : Option String)
    (now : String) (it : LabOrderItem) :
    (applyResult itemId value notes now it).id = it.id := by
  unfold applyResult
  split <;> rfl

/-- applyResult never changes an item's owning order. -/
lemma applyResult_labOrderId (itemId : Nat) (value : String) (notes : Option String)
    (now : String) (it : LabOrderItem) :
    (applyResult itemId value notes now it).labOrderId = it.labOrderId := by
  unfold applyResult
  split <;> rfl

/-- applyResult fixes every row whose id differs from the target. -/
lemma applyResult_of_ne (itemId : Nat) (value : String) (notes : Option String)
    (now : String) (it : LabOrderItem) (h : it.id ≠ itemId) :
    applyResult itemId value notes now it = it := by
  unfold applyResult
  rw [if_neg h]

/-- On a table with unique ids, the scan for the targeted id over the
updated rows finds exactly the updated image of the targeted row. -/
lemma find?_map_applyResult (l : List LabOrderItem) (itemId : Nat) (value : String)
    (notes : Option String) (now : String) (it : LabOrderItem)
    (hmem : it ∈ l) (hid : it.id = itemId)
    (hnodup : (l.map (fun i => i.id)).Nodup) :
    (l.map (applyResult itemId value notes now)).find? (fun j => j.id = itemId) =
      some (applyResult itemId value notes now it) := by
  induction l with
  | nil => cases hmem
  | cons a t ih =>
    rw [List.map_cons] at hnodup ⊢
    rcases List.nodup_cons.1 hnodup with ⟨hnotin, hnd⟩
    by_cases ha : a.id = itemId
    · have hae : it = a := by
        rcases List.mem_cons.1 hmem with h | h
        · exact h
        · exfalso
          apply hnotin
          rw [ha, ← hid]
          exact List.mem_map_of_mem (fun i => i.id) h
      rw [List.find?_cons_of_pos _ (by simp [applyResult_id, ha]), hae]
    · have hit : it ∈ t := by
        rcases List.mem_cons.1 hmem with h | h
        · exact absurd (h ▸ hid) ha
        · exact h
      rw [List.find?_cons_of_neg _ (by simp [applyResult_id, ha])]
      exact ih hit hnd

/-- Claim C1: recording a result completes the targeted item with its
result fields; the owning order becomes Completed when every item of
the order is then Completed and keeps its current status otherwise;
orders not owning the item keep their rows; an order already
Completed is never demoted; and creating a lab order preserves every
existing order row, so no operation of the lab workflow reverts a
Completed order to Ordered. -/
theorem recordLabResult_c1 (s : State) (itemId : Nat) (value : String)
    (notes : Option String) (now : String) (it : LabOrderItem)
    (hmem : it ∈ s.labOrderItems) (hid : it.id = itemId)
    (hnodup : (s.labOrderItems.map (fun i => i.id)).Nodup) :
    { it with
        status := "Completed"
        resultValue := some value
        resultNotes := notes
        resultAt := some now } ∈ (recordLabResult s itemId value notes now).labOrderItems ∧
    (∀ j ∈ s.labOrderItems, j.id ≠ itemId →
      j ∈ (recordLabResult s itemId value notes now).labOrderItems) ∧
    (∀ o ∈ s.labOrders, o.id = it.labOrderId →
      ((recordLabResult s itemId value notes now).labOrderItems.all
          (fun j => j.labOrderId ≠ o.id || j.status = "Completed") = true →
        { o with status := "Completed" } ∈ (recordLabResult s itemId value notes now).labOrders) ∧
      ((recordLabResult s itemId value notes now).labOrderItems.all
          (fun j => j.labOrderId ≠ o.id || j.status = "Completed") = false →
        o ∈ (recordLabResult s itemId value notes now).labOrders)) ∧
    (∀ o ∈ s.labOrders, o.id ≠ it.labOrderId →
      o ∈ (recordLabResult s itemId value notes now).labOrders) ∧
    (∀ o ∈ s.labOrders, o.status = "Completed" →
      o ∈ (recordLabResult s itemId value notes now).labOrders) ∧
    (∀ usn2 tc nts now2 s3 oid,
      createLabOrder s usn2 tc nts now2 = Except.ok (s3, oid) →
      ∀ o ∈ s.labOrders, o ∈ s3.labOrders) := by
  have hfind := find?_map_applyResult s.labOrderItems itemId value notes now it hmem hid hnodup
  have happ : applyResult itemId value notes now it =
      { it with
          status := "Completed"
          resultValue := some value
          resultNotes := notes
          resultAt := some now } := by
    unfold applyResult
    rw [if_pos hid]
  have howner : ((s.labOrderItems.map (applyResult itemId value notes now)).find?
      (fun j => j.id = itemId)).map (fun j => j.labOrderId) = some it.labOrderId := by
    rw [hfind, Option.map_some', applyResult_labOrderId]
  refine ⟨?_, ?_, ?_, ?_, ?_, ?_⟩
  · rw [← happ]
    exact List.mem_map_of_mem _ hmem
  · intro j hj hne
    have hfix := applyResult_of_ne itemId value notes now j hne
    exact hfix ▸ List.mem_map_of_mem (applyResult itemId value notes now) hj
  · intro o ho hoid
    constructor
    · intro hall
      refine List.mem_map.2 ⟨o, ho, ?_⟩
      have hcond : ((s.labOrderItems.map (applyResult itemId value notes now)).find?
          (fun j => j.id = itemId)).map (fun j => j.labOrderId) = some o.id := by
        rw [howner, hoid]
      have hall2 : ((s.labOrderItems.map (applyResult itemId value notes now)).all
          (fun j => j.labOrderId ≠ o.id || j.status = "Completed")) = true := hall
      rw [if_pos hcond, if_pos hall2]
    · intro hnall
      refine List.mem_map.2 ⟨o, ho, ?_⟩
      have hcond : ((s.labOrderItems.map (applyResult itemId value notes now)).find?
          (fun j => j.id = itemId)).map (fun j => j.labOrderId) = some o.id := by
        rw [howner, hoid]
      have hnall2 : ((s.labOrderItems.map (applyResult itemId value notes now)).all
          (fun j => j.labOrderId ≠ o.id || j.status = "Completed")) = false := hnall
      rw [if_pos hcond, if_neg (by rw [hnall2]; exact Bool.false_ne_true)]
  · intro o ho hne
    refine List.mem_map.2 ⟨o, ho, ?_⟩
    have hcond : ¬ ((s.labOrderItems.map (applyResult itemId value notes now)).find?
        (fun j => j.id = itemId)).map (fun j => j.labOrderId) = some o.id := by
      rw [howner]
      simp only [Option.some.injEq]
      exact fun h => hne h.symm
    rw [if_neg hcond]
  · intro o ho hstat
    refine List.mem_map.2 ⟨o, ho, ?_⟩
    have hco : ({ o with status := "Completed" } : LabOrder) = o := by
      cases o with
      | mk i u e oa st nt =>
        simp only [LabOrder.mk.injEq, and_true, true_and]
        exact hstat.symm
    by_cases h1 : ((s.labOrderItems.map (applyResult itemId value notes now)).find?
        (fun j => j.id = itemId)).map (fun j => j.labOrderId) = some o.id
    · rw [if_pos h1]
      split
      · exact hco
      · rfl
    · rw [if_neg h1]
  · intro usn2 tc nts now2 s3 oid hok o ho
    unfold createLabOrder at hok
    split at hok
    · exact absurd hok (by simp)
    · split at hok
      · split at hok
        · exact absurd hok (by simp)
        · simp only [Except.ok.injEq, Prod.mk.injEq] at hok
          obtain ⟨hs3, -⟩ := hok
          rw [← hs3]
          exact List.mem_append_left _ ho
      · exact absurd hok (by simp)

/-- A store with one patient, the seeded catalog and a single-item
order still Ordered. -/
def labOneW : State := { labW with labOrderItems := [⟨1, 1, 1, "Ordered", none, none, none⟩] }

/-- Witness for C1: completing the only item of order 1 marks the
order Completed. -/
theorem recordLabResult_c1_witness :
    (⟨1, "U1", none, "t0", "Completed", none⟩ : LabOrder) ∈
      (recordLabResult labOneW 1 "5.1" none "t1").labOrders := by
  have h := (recordLabResult_c1 labOneW 1 "5.1" none "t1"
    ⟨1, 1, 1, "Ordered", none, none, none⟩ (by decide) rfl (by decide)).2.2.1
    ⟨1, "U1", none, "t0", "Ordered", none⟩ (by decide) rfl
  exact h.1 (by decide)

/-- A list all of whose elements equal v, and which contains v, has v
as its last element. -/
lemma getLast?_all_eq {α : Type} (l : List α) (v : α) (hne : v ∈ l)
    (hall : ∀ x ∈ l, x = v) : l.getLast? = some v := by
  induction l with
  | nil => cases hne
  | cons a t ih =>
    cases t with
    | nil =>
      have ha : a = v := hall a (by simp)
      simp [ha]
    | cons b t2 =>
      rw [List.getLast?_cons_cons]
      refine ih ?_ (fun x hx => hall x (List.mem_cons_of_mem a hx))
      have hb := hall b (by simp)
      rw [← hb]
      exact List.mem_cons_self b t2

/-- Soundness of the pickLater scan: started on some a over a list, it
returns an element that is a or comes from the list and whose
timestamp is at least that of a and of every list element. -/
lemma foldl_pickLater_sound (l : List Vital) (a : Vital) :
    ∃ m, l.foldl pickLater (some a) = some m ∧ a.recordedAt ≤ m.recordedAt ∧
      (m = a ∨ m ∈ l) ∧ (∀ w ∈ l, w.recordedAt ≤ m.recordedAt) := by
  induction l generalizing a with
  | nil => exact ⟨a, rfl, le_refl _, Or.inl rfl, by simp⟩
  | cons x t ih =>
    by_cases hlt : a.recordedAt < x.recordedAt
    · obtain ⟨m, hm, hxm, hmemb, hall⟩ := ih x
      refine ⟨m, ?_, le_trans (le_of_lt hlt) hxm, ?_, ?_⟩
      · rw [List.foldl_cons]
        simpa [pickLater, hlt] using hm
      · rcases hmemb with rfl | h
        · exact Or.inr (List.mem_cons_self _ _)
        · exact Or.inr (List.mem_cons_of_mem _ h)
      · intro w hw
        rcases List.mem_cons.1 hw with rfl | h
        · exact hxm
        · exact hall w h
    · obtain ⟨m, hm, ham, hmemb, hall⟩ := ih a
      refine ⟨m, ?_, ham, ?_, ?_⟩
      · rw [List.foldl_cons]
        simpa [pickLater, hlt] using hm
      · rcases hmemb with rfl | h
        · exact Or.inl rfl
        · exact Or.inr (List.mem_cons_of_mem _ h)
      · intro w hw
        rcases List.mem_cons.1 hw with rfl | h
        · exact le_trans (le_of_not_lt hlt) ham
        · exact hall w h

/-- Claim C7: a patient one of whose vitals records is strictly latest
gets exactly that record both from the latest-vitals map of the CSV
export and from the per-patient subquery of the complete export, and a
patient with no vitals is absent from the map yet still yields an
export row whose vitals columns are all empty. -/
theorem latestVitals_c7 (s : State) (p : Patient) (hp : p ∈ s.patients) :
    (∀ v ∈ s.vitals, v.usn = p.usn →
      (∀ w ∈ s.vitals, w.usn = p.usn → w ≠ v → w.recordedAt < v.recordedAt) →
      latestVitalsMap s.vitals p.usn = some v ∧
      latestVitalFor s.vitals p.usn = some v) ∧
    ((∀ w ∈ s.vitals, w.usn ≠ p.usn) →
      latestVitalsMap s.vitals p.usn = none ∧
      latestVitalFor s.vitals p.usn = none ∧
      (⟨p.usn, p.fullName, p.age, p.gender, p.contact, p.address, none, none, none, 0,
        (s.prescriptions.filter (fun r => r.usn = p.usn)).length⟩ : ExportRow) ∈
        exportComplete s) := by
  constructor
  · intro v hv hvu hmax
    constructor
    · unfold latestVitalsMap
      apply getLast?_all_eq
      · apply List.mem_filter.2
        refine ⟨?_, by simp [hvu]⟩
        unfold latestVitalsRows
        apply List.mem_filter.2
        refine ⟨hv, ?_⟩
        simp only [isLatestFor, List.all_eq_true]
        intro w hw
        by_cases hwu : w.usn = v.usn
        · by_cases hwv : w = v
          · simp [hwv]
          · have hlt := hmax w hw (by rw [hwu, hvu]) hwv
            simp [le_of_lt hlt]
        · simp [hwu]
      · intro x hx
        rcases List.mem_filter.1 hx with ⟨hx1, hx2⟩
        rcases List.mem_filter.1 hx1 with ⟨hxv, hxl⟩
        have hxu : x.usn = p.usn := by simpa using hx2
        by_cases hxeq : x = v
        · exact hxeq
        · exfalso
          have hlt := hmax x hxv hxu hxeq
          have h2 := (by simpa only [isLatestFor, List.all_eq_true] using hxl :
            ∀ w ∈ s.vitals, (decide (w.usn ≠ x.usn) || decide (w.recordedAt ≤ x.recordedAt)) = true) v hv
          have husn : v.usn = x.usn := by rw [hvu, hxu]
          rw [show (decide (v.usn ≠ x.usn)) = false by simp [husn], Bool.false_or] at h2
          have hle : v.recordedAt ≤ x.recordedAt := of_decide_eq_true h2
          exact absurd (lt_of_le_of_lt hle hlt) (lt_irrefl _)
    · unfold latestVitalFor
      have hvf : v ∈ s.vitals.filter (fun w => w.usn = p.usn) :=
        List.mem_filter.2 ⟨hv, by simp [hvu]⟩
      cases hF : s.vitals.filter (fun w => w.usn = p.usn) with
      | nil =>
        rw [hF] at hvf
        cases hvf
      | cons x t =>
        rw [List.foldl_cons]
        obtain ⟨m, hm, hxm, hmemb, hall⟩ := foldl_pickLater_sound t x
        have hstep : pickLater none x = some x := rfl
        rw [hstep, hm]
        have hmF : m ∈ x :: t := by
          rcases hmemb with rfl | h
          · exact List.mem_cons_self _ _
          · exact List.mem_cons_of_mem _ h
        rw [← hF] at hmF
        rcases List.mem_filter.1 hmF with ⟨hms, hmu⟩
        by_cases hmv : m = v
        · rw [hmv]
        · exfalso
          have hlt := hmax m hms (by simpa using hmu) hmv
          have hvF : v ∈ x :: t := hF ▸ hvf
          rcases List.mem_cons.1 hvF with rfl | hvt
          · exact absurd (lt_of_le_of_lt hxm hlt) (lt_irrefl _)
          · exact absurd (lt_of_le_of_lt (hall v hvt) hlt) (lt_irrefl _)
  · intro hnone
    have hF : s.vitals.filter (fun w => w.usn = p.usn) = [] :=
      List.filter_eq_nil_iff.2 (fun w hw => by simpa using hnone w hw)
    have hLf : latestVitalFor s.vitals p.usn = none := by
      unfold latestVitalFor
      rw [hF]
      rfl
    refine ⟨?_, hLf, ?_⟩
    · unfold latestVitalsMap
      have hF2 : (latestVitalsRows s.vitals).filter (fun v => v.usn = p.usn) = [] := by
        apply List.filter_eq_nil_iff.2
        intro w hw
        have hws : w ∈ s.vitals := (List.mem_filter.1 hw).1
        simpa using hnone w hws
      rw [hF2]
      rfl
    · unfold exportComplete
      apply List.mem_map.2
      refine ⟨p, hp, ?_⟩
      simp only [hLf, Option.map_none', hF, List.length_nil]

/-- A store with two patients: U1 has three vitals records at strictly
increasing timestamps, U2 has none. -/
def vit3W : State := { emptyState with
  patients := [patientW, ⟨"U2", "Bob", 40, "M", "8", "Oak"⟩]
  vitals := [⟨1, "U1", 70, 175, 120, 80, 72, 37, none, none, "", "t1", "System User"⟩,
    ⟨2, "U1", 71, 175, 121, 81, 73, 37, none, none, "", "t2", "System User"⟩,
    ⟨3, "U1", 72, 175, 122, 82, 74, 37, none, none, "", "t3", "System User"⟩] }

/-- Witness for C7: with records at t1 < t2 < t3, U1 gets exactly the
t3 record from both latest-vitals computations, while U2 is absent
from the map and exports with empty vitals columns. -/
theorem latestVitals_c7_witness :
    latestVitalsMap vit3W.vitals "U1" =
      some ⟨3, "U1", 72, 175, 122, 82, 74, 37, none, none, "", "t3", "System User"⟩ ∧
    latestVitalsMap vit3W.vitals "U2" = none ∧
    (⟨"U2", "Bob", 40, "M", "8", "Oak", none, none, none, 0, 0⟩ : ExportRow) ∈
      exportComplete vit3W := by
  have hU1 := (latestVitals_c7 vit3W patientW (by decide)).1
    ⟨3, "U1", 72, 175, 122, 82, 74, 37, none, none, "", "t3", "System User"⟩
    (by decide) rfl
    (by
      intro w hw hwu hne
      rw [String.lt_iff_toList_lt]
      fin_cases hw
      · decide
      · decide
      · exact absurd rfl hne)
  have hU2 := (latestVitals_c7 vit3W ⟨"U2", "Bob", 40, "M", "8", "Oak"⟩ (by decide)).2
    (by decide)
  exact ⟨hU1.1, hU2.1, hU2.2.2⟩

end HMIS
